import Mathlib

/-!
Verification of the lair keystore against its natural-language specification.

The development shallowly embeds the repository's Rust sources:

- crates/lair_keystore_api/src/internal/sign_ed25519.rs : thin wrappers
  around the external ring crate's Ed25519 primitives.  The wrappers are
  embedded exactly; the external ring functions they call are a parameter
  (structure RingEd25519) carrying only the behaviour ring documents.
- crates/lair_keystore/src/bin/lair-keystore/main.rs : the CLI entry point.
- The entry store, service actor and crypto_box primitives live in crate
  files that are not part of the sources under verification; for claims
  about them the definitions are modelled from the specification text, and
  each such definition says so in its doc comment.

Bytes are modelled as List Nat (each element a byte value); byte equality
is list equality, which is what the Rust PartialEq derives compare.
-/

/-- Backend interface of the external ring crate functions called by
sign_ed25519.rs.  Only behaviour documented by ring is recorded:
SystemRandom.fill fills exactly the requested number of bytes when it
succeeds, and UnparsedPublicKey.verify for ED25519 rejects (is_ok() is
false) whenever the public key is not 32 bytes or the signature is not
64 bytes. -/
structure RingEd25519 where
  /-- ring::rand::SecureRandom::fill on a SystemRandom, asked for n bytes. -/
  fillRandom : Nat → Except String (List Nat)
  /-- A successful fill yields exactly the requested number of bytes. -/
  fillRandom_length : ∀ n l, fillRandom n = Except.ok l → l.length = n
  /-- The public key ring derives from a 32-byte seed
  (ring::signature::KeyPair::public_key of the keypair built by
  Ed25519KeyPair::from_seed_unchecked). -/
  derivePub : List Nat → List Nat
  /-- Ed25519KeyPair::sign on the keypair built from a 32-byte seed:
  seed and message to detached 64-byte signature bytes. -/
  signCore : List Nat → List Nat → List Nat
  /-- UnparsedPublicKey::new(&ED25519, pub).verify(msg, sig).is_ok(). -/
  verifyCore : List Nat → List Nat → List Nat → Bool
  /-- ring rejects wrong-length public keys and signatures: verify
  returns Err there, so is_ok() is false. -/
  verifyCore_badlen : ∀ pk msg sig,
    pk.length ≠ 32 ∨ sig.length ≠ 64 → verifyCore pk msg sig = false

/-- SignEd25519PrivKey: newtype over the byte vector (the Arc is
irrelevant to values). -/
structure SignEd25519PrivKey where
  bytes : List Nat
deriving DecidableEq

/-- The From impl for SignEd25519PrivKey: wraps the vector unchanged,
with no validation of any kind. -/
def SignEd25519PrivKey.fromVec (d : List Nat) : SignEd25519PrivKey := ⟨d⟩

/-- SignEd25519PubKey: newtype over the byte vector. -/
structure SignEd25519PubKey where
  bytes : List Nat
deriving DecidableEq

/-- The From impl for SignEd25519PubKey: wraps the vector unchanged,
with no validation of any kind. -/
def SignEd25519PubKey.fromVec (d : List Nat) : SignEd25519PubKey := ⟨d⟩

/-- SignEd25519Signature: newtype over the byte vector. -/
structure SignEd25519Signature where
  bytes : List Nat
deriving DecidableEq

/-- The From impl for SignEd25519Signature: wraps the vector unchanged,
with no validation of any kind. -/
def SignEd25519Signature.fromVec (d : List Nat) : SignEd25519Signature := ⟨d⟩

/-- The keypair entry returned by key generation
(entry::EntrySignEd25519 with priv_key and pub_key fields). -/
structure EntrySignEd25519 where
  priv_key : SignEd25519PrivKey
  pub_key : SignEd25519PubKey
deriving DecidableEq

/-- ring::signature::Ed25519KeyPair::from_seed_unchecked: succeeds exactly
when the seed is 32 bytes (unchecked means no public-key consistency
check; any 32-byte seed is accepted) and yields the keypair, represented
here by its seed.  On any other length it returns Err, which the Rust
wrappers map to a string error. -/
def ed25519KeypairFromSeedUnchecked (seed : List Nat) :
    Except String (List Nat) :=
  if seed.length = 32 then Except.ok seed
  else Except.error "InvalidSeed"

/-- sign_ed25519_keypair_new_from_entropy: fill a fresh 32-byte buffer
from SystemRandom, build a keypair from the seed, derive its public key,
and return both; every fallible step propagates its error with `?`. -/
def sign_ed25519_keypair_new_from_entropy (R : RingEd25519) :
    Except String EntrySignEd25519 :=
  match R.fillRandom 32 with
  | Except.error e => Except.error e
  | Except.ok priv_key =>
    match ed25519KeypairFromSeedUnchecked priv_key with
    | Except.error e => Except.error e
    | Except.ok keypair =>
      Except.ok ⟨⟨priv_key⟩, ⟨R.derivePub keypair⟩⟩

/-- sign_ed25519: rebuild the keypair from the private key bytes via
from_seed_unchecked (propagating its error) and produce the detached
signature bytes. -/
def sign_ed25519 (R : RingEd25519) (priv_key : SignEd25519PrivKey)
    (message : List Nat) : Except String SignEd25519Signature :=
  match ed25519KeypairFromSeedUnchecked priv_key.bytes with
  | Except.error e => Except.error e
  | Except.ok keypair => Except.ok ⟨R.signCore keypair message⟩

/-- sign_ed25519_verify: wraps the public key bytes as an
UnparsedPublicKey and returns Ok(verify(message, signature).is_ok()).
The body is a single Ok, so it never produces an error. -/
def sign_ed25519_verify (R : RingEd25519) (pub_key : SignEd25519PubKey)
    (message : List Nat) (signature : SignEd25519Signature) :
    Except String Bool :=
  Except.ok (R.verifyCore pub_key.bytes message signature.bytes)

/-- A concrete instantiation of the ring backend used to witness the
theorems on concrete inputs.  Its behaviour on well-formed inputs is
arbitrary; it satisfies exactly the documented constraints. -/
def ringModel : RingEd25519 where
  fillRandom := fun n => Except.ok (List.replicate n 0)
  fillRandom_length := by
    intro n l h
    simp only [Except.ok.injEq] at h
    subst h
    exact List.length_replicate n 0
  derivePub := fun seed => seed
  signCore := fun seed message => seed ++ message
  verifyCore := fun pk _ sig =>
    decide (pk.length = 32) && decide (sig.length = 64)
  verifyCore_badlen := by
    intro pk msg sig h
    rcases h with h | h <;> simp [h]

/-! CLI entry point, from crates/lair_keystore/src/bin/lair-keystore/main.rs.
The structopt parse and the tracing subscriber are external; the embedding
starts from the parsed Opt.  The version string lair_keystore::LAIR_VER and
the result of lair_keystore::execute_lair are parameters (their definitions
live in the lair_keystore library crate, outside these sources). -/

/-- The parsed command-line options (struct Opt): the version flag
(set by either --version or -v) and the optional lair data directory. -/
structure Opt where
  version : Bool
  lair_dir : Option String
deriving DecidableEq

/-- Observable outcome of one run of main: the lines printed to standard
output (in order), whether the process exits with status 0 (main
returning Ok), and whether execute_lair — the keystore service startup —
was invoked. -/
structure MainOutcome where
  stdout : List String
  exitOk : Bool
  startedService : Bool
deriving DecidableEq

/-- The body of main after option parsing: on the version flag, print
one line and return Ok immediately; otherwise run execute_lair
(propagating its error as a non-zero exit) and, on success, print the two
ready-marker lines and wait forever serving connections. -/
def mainRun (ver : String) (execLair : Except String Unit) (opt : Opt) :
    MainOutcome :=
  if opt.version then
    { stdout := ["lair-keystore " ++ ver]
      exitOk := true
      startedService := false }
  else
    match execLair with
    | Except.error _ =>
      { stdout := [], exitOk := false, startedService := true }
    | Except.ok _ =>
      { stdout := ["#lair-keystore-ready#",
                   "#lair-keystore-version:" ++ ver ++ "#"]
        exitOk := true
        startedService := true }

/-! Entry store and service actor operations.  The store and actor live in
crate files outside the sources under verification (only their integration
test is present), so the definitions below are modelled from the
specification text, sections 4.2 and 4.5. -/

/-- Modelled from the spec: the EntryKind enumeration of section 3
(LairEntryType in the API), one of Invalid, TlsCert, SignEd25519,
X25519; the store and actor code defining it is not among the sources. -/
inductive LairEntryType where
  | Invalid
  | TlsCert
  | SignEd25519
  | X25519
deriving DecidableEq

/-- Modelled from the spec: a stored entry, one of the three key-bearing
kinds of section 3; the entry definitions are not among the sources.
TLS entries carry their SNI and digest, Ed25519 entries their seed and
derived public key, X25519 entries their private scalar (keys of the
symbolic Diffie-Hellman model below). -/
inductive LairEntry where
  | tlsCert (sni : String) (digest : List Nat)
  | signEd25519 (priv_key : List Nat) (pub_key : List Nat)
  | x25519 (priv_key : Nat)
deriving DecidableEq

/-- The kind tag of an entry. -/
def LairEntry.kind : LairEntry → LairEntryType
  | .tlsCert _ _ => .TlsCert
  | .signEd25519 _ _ => .SignEd25519
  | .x25519 _ => .X25519

/-- Modelled from the spec: the append-only entry store of section 4.2,
a log of entries where the entry appended i-th (counting from 1) has
keystore index i; the store code is not among the sources. -/
abbrev Store : Type := List LairEntry

/-- Modelled from the spec: last_index returns the highest assigned
index, hence 0 for an empty store (indices are dense from 1). -/
def lastEntryIndex (s : Store) : Nat := s.length

/-- Modelled from the spec: get(index) is total; index 0 is the reserved
sentinel and any index beyond the last assigned one yields the Invalid
marker (none), never an error. -/
def getEntry (s : Store) (idx : Nat) : Option LairEntry :=
  if idx = 0 then none else s.get? (idx - 1)

/-- Modelled from the spec: entry_type(index) is total; it reports the
kind of the entry at the index, and Invalid for index 0 or any index
beyond the last assigned one. -/
def lairGetEntryType (s : Store) (idx : Nat) : LairEntryType :=
  match getEntry s idx with
  | some e => e.kind
  | none => .Invalid

/-- Modelled from the spec: append assigns the next index (previous
length plus one) and persists the entry at it. -/
def appendEntry (s : Store) (e : LairEntry) : Store × Nat :=
  (s ++ [e], s.length + 1)

/-- Modelled from the spec: a sequence of new-from-entropy requests of
any mix of kinds, processed in order by the service actor; each request
appends its freshly generated entry and returns the assigned index. -/
def runNewFromEntropy : Store → List LairEntry → Store × List Nat
  | s, [] => (s, [])
  | s, e :: es =>
    let step := appendEntry s e
    let rest := runNewFromEntropy step.1 es
    (rest.1, step.2 :: rest.2)

/-- Modelled from the spec: the in-memory secondary index from Ed25519
public key to keystore index (find_sign_by_pub); on a duplicate public
key the earliest index wins.  Implemented as first match over the log in
index order. -/
def findSignByPub (s : Store) (pk : List Nat) : Option Nat :=
  match s with
  | [] => none
  | e :: rest =>
    match e with
    | .signEd25519 _ p =>
      if p = pk then some 1
      else (findSignByPub rest pk).map (· + 1)
    | _ => (findSignByPub rest pk).map (· + 1)

/-- Modelled from the spec: sign_ed25519_sign_by_index — look the entry
up by index, reject a missing or non-Ed25519 entry, and sign the message
with the stored seed using the sign_ed25519 primitive (the embedded
source wrapper). -/
def signEd25519SignByIndex (R : RingEd25519) (s : Store) (idx : Nat)
    (message : List Nat) : Except String SignEd25519Signature :=
  match getEntry s idx with
  | some (.signEd25519 pk _) => sign_ed25519 R ⟨pk⟩ message
  | _ => Except.error "BadIndex"

/-- Modelled from the spec: sign_ed25519_sign_by_pub_key is find_sign_by_pub
followed by sign-by-index; it fails with UnknownKey when the public key
is absent. -/
def signEd25519SignByPubKey (R : RingEd25519) (s : Store) (pk : List Nat)
    (message : List Nat) : Except String SignEd25519Signature :=
  match findSignByPub s pk with
  | some idx => signEd25519SignByIndex R s idx message
  | none => Except.error "UnknownKey"

/-- Modelled from the spec: a client connection is a stub that forwards
each request over IPC to the single shared service actor owning the
store; the reply a client receives for sign-by-index is the actor's
result, whatever the connection. -/
def clientSignByIndex (_clientId : Nat) (R : RingEd25519) (s : Store)
    (idx : Nat) (message : List Nat) : Except String SignEd25519Signature :=
  signEd25519SignByIndex R s idx message

/-- Modelled from the spec: the client stub for sign-by-pub-key,
likewise forwarding to the shared service actor. -/
def clientSignByPubKey (_clientId : Nat) (R : RingEd25519) (s : Store)
    (pk : List Nat) (message : List Nat) :
    Except String SignEd25519Signature :=
  signEd25519SignByPubKey R s pk message

/-! Crypto box (X25519 + authenticated secret box).  The crypto_box
module of the API crate is not among the sources (only its integration
test is), so it is modelled from the specification, sections 3, 4.1 and
the glossary, in a symbolic Dolev-Yao style: key agreement is an
unordered pair of the two private scalars, and a sealed box is a formal
constructor binding key, nonce and plaintext, which only the matching
key opens. -/

/-- Modelled from the spec: an X25519 public key, pub = scalar_base_mult
of the private scalar; base-point multiplication is injective and
one-way, modelled as a formal constructor on the scalar. -/
inductive X25519PubKey where
  | basePoint (scalar : Nat)
deriving DecidableEq

/-- Modelled from the spec: X25519 public-key derivation
(scalar_base_mult). -/
def x25519PubOf (priv_key : Nat) : X25519PubKey := .basePoint priv_key

/-- Modelled from the spec: the Diffie-Hellman shared secret of a
private scalar and a peer public point.  Its defining property is
symmetry — shared(a, pubOf b) = shared(b, pubOf a) — modelled as the
unordered pair of the two scalars. -/
def sharedSecret (priv_key : Nat) (peer : X25519PubKey) : Nat × Nat :=
  match peer with
  | .basePoint q => (min priv_key q, max priv_key q)

/-- Modelled from the spec: the authenticated ciphertext body; the MAC
binds it to the shared key and the nonce, so it is modelled as a formal
constructor carrying exactly (key, nonce, plaintext). -/
inductive SealedBytes where
  | mk (key : Nat × Nat) (nonce : Nat) (data : List Nat)
deriving DecidableEq

/-- Modelled from the spec: the wire form of a crypto_box result, a
24-byte fresh-random nonce together with the ciphertext-plus-MAC bytes
(CryptoBoxEncryptedData with nonce and encrypted_data fields). -/
structure CryptoBoxEncrypted where
  nonce : Nat
  encrypted_data : SealedBytes
deriving DecidableEq

/-- Modelled from the spec: crypto_box seal — authenticated encryption
of the plaintext under the sender-recipient shared secret with the given
nonce.  The nonce is drawn fresh per sealing by the caller (see
freshNonce). -/
def cryptoBoxSeal (sender_priv : Nat) (recipient_pub : X25519PubKey)
    (nonce : Nat) (data : List Nat) : CryptoBoxEncrypted :=
  { nonce := nonce
    encrypted_data := .mk (sharedSecret sender_priv recipient_pub) nonce data }

/-- Modelled from the spec: crypto_box open — recompute the shared
secret from the recipient private key and the claimed sender public key
and verify the MAC; authentication failure is a successful absent
result (none), never an error. -/
def cryptoBoxOpen (recipient_priv : Nat) (sender_pub : X25519PubKey)
    (box : CryptoBoxEncrypted) : Option (List Nat) :=
  match box.encrypted_data with
  | .mk key nonce data =>
    if key = sharedSecret recipient_priv sender_pub ∧ nonce = box.nonce then
      some data
    else none

/-- Modelled from the spec: the service's nonce source.  Each sealing
draws a fresh random 24-byte nonce; freshness (two draws never
coincide) is the specified contract, modelled by an injective stream —
the k-th draw is k. -/
def freshNonce (k : Nat) : Nat := k

/-- Modelled from the spec: two independent sealings of the same
plaintext by the service: each draws the next fresh nonce from the
source and seals. -/
def sealTwice (sender_priv : Nat) (recipient_pub : X25519PubKey)
    (k : Nat) (data : List Nat) : CryptoBoxEncrypted × CryptoBoxEncrypted :=
  (cryptoBoxSeal sender_priv recipient_pub (freshNonce k) data,
   cryptoBoxSeal sender_priv recipient_pub (freshNonce (k + 1)) data)

/-- Modelled from the spec: a crypto-box-open request as received by a
connection's dispatcher — recipient selector (private scalar of the
recipient entry), claimed sender public key, and the box. -/
structure OpenRequest where
  recipient_priv : Nat
  sender_pub : X25519PubKey
  box : CryptoBoxEncrypted
deriving DecidableEq

/-- Modelled from the spec: the service handles one open request;
decryption failure is NOT an error but a successful absent reply. -/
def handleOpenRequest (r : OpenRequest) :
    Except String (Option (List Nat)) :=
  Except.ok (cryptoBoxOpen r.recipient_priv r.sender_pub r.box)

/-- Modelled from the spec: the per-connection dispatcher processes its
requests one at a time in submission order and produces exactly one
reply per request; a failed decryption does not stall or drop later
requests. -/
def dispatchOpenRequests (reqs : List OpenRequest) :
    List (Except String (Option (List Nat))) :=
  reqs.map handleOpenRequest

/-! Theorems settling the claims. -/

/-- C9: with the version flag set, main prints exactly the single line
lair-keystore followed by the semver to standard output, returns Ok
(exit status 0), and never invokes execute_lair, whatever the
execute_lair behaviour and the lair-dir option. -/
theorem mainRun_version_prints_and_exits
    (ver : String) (execLair : Except String Unit) (dir : Option String) :
    mainRun ver execLair ⟨true, dir⟩ =
      { stdout := ["lair-keystore " ++ ver]
        exitOk := true
        startedService := false } ∧
    (mainRun ver execLair ⟨true, dir⟩).stdout.length = 1 := by
  constructor <;> rfl

/-- C2, as stated, is false: on a wrong-length public key and signature
(here both empty), sign_ed25519_verify does not fail with a BadInput
error — it returns Ok(false). -/
theorem sign_ed25519_verify_badlen_not_error :
    sign_ed25519_verify ringModel (SignEd25519PubKey.fromVec []) []
        (SignEd25519Signature.fromVec []) = Except.ok false ∧
    (sign_ed25519_verify ringModel (SignEd25519PubKey.fromVec []) []
        (SignEd25519Signature.fromVec [])).isOk = true := by
  constructor <;> rfl

/-- C2 amended: sign_ed25519_verify never returns an error at all — its
body is a single Ok around the boolean outcome; in particular a
wrong-length public key or signature yields Ok(false) rather than a
BadInput error, because ring rejects such inputs and the wrapper maps
rejection to false. -/
theorem sign_ed25519_verify_never_errors
    (R : RingEd25519) (pk : SignEd25519PubKey) (message : List Nat)
    (signature : SignEd25519Signature) :
    (sign_ed25519_verify R pk message signature).isOk = true ∧
    (pk.bytes.length ≠ 32 ∨ signature.bytes.length ≠ 64 →
      sign_ed25519_verify R pk message signature = Except.ok false) := by
  refine ⟨rfl, fun h => ?_⟩
  unfold sign_ed25519_verify
  rw [R.verifyCore_badlen pk.bytes message signature.bytes h]

/-- Witness for C2 amended at a concrete wrong-length input. -/
theorem sign_ed25519_verify_never_errors_witness :
    (sign_ed25519_verify ringModel (SignEd25519PubKey.fromVec [1, 2]) [9]
        (SignEd25519Signature.fromVec [3])).isOk = true ∧
    sign_ed25519_verify ringModel (SignEd25519PubKey.fromVec [1, 2]) [9]
        (SignEd25519Signature.fromVec [3]) = Except.ok false :=
  ⟨(sign_ed25519_verify_never_errors ringModel (SignEd25519PubKey.fromVec [1, 2])
      [9] (SignEd25519Signature.fromVec [3])).1,
   (sign_ed25519_verify_never_errors ringModel (SignEd25519PubKey.fromVec [1, 2])
      [9] (SignEd25519Signature.fromVec [3])).2 (Or.inl (by decide))⟩

/-- C10: the From impls for the three byte newtypes wrap any vector
unchanged with no validation of the length; a wrong-length vector is
only detected when used — sign_ed25519 then errors (from_seed_unchecked
rejects a non-32-byte seed) and sign_ed25519_verify returns Ok(false)
(ring rejects the malformed key and the wrapper maps rejection to
false). -/
theorem fromVec_unvalidated_then_checked_on_use
    (d : List Nat) (R : RingEd25519) (message : List Nat) :
    (SignEd25519PrivKey.fromVec d).bytes = d ∧
    (SignEd25519PubKey.fromVec d).bytes = d ∧
    (SignEd25519Signature.fromVec d).bytes = d ∧
    (d.length ≠ 32 →
      sign_ed25519 R (SignEd25519PrivKey.fromVec d) message =
        Except.error "InvalidSeed") ∧
    (d.length ≠ 32 → ∀ signature,
      sign_ed25519_verify R (SignEd25519PubKey.fromVec d) message signature =
        Except.ok false) := by
  refine ⟨rfl, rfl, rfl, fun h => ?_, fun h signature => ?_⟩
  · simp [sign_ed25519, SignEd25519PrivKey.fromVec,
      ed25519KeypairFromSeedUnchecked, h]
  · show Except.ok (R.verifyCore d message signature.bytes) = Except.ok false
    rw [R.verifyCore_badlen d message signature.bytes (Or.inl h)]

/-- Witness for C10 at the concrete three-byte vector. -/
theorem fromVec_unvalidated_then_checked_on_use_witness :
    (SignEd25519PrivKey.fromVec [1, 2, 3]).bytes = [1, 2, 3] ∧
    sign_ed25519 ringModel (SignEd25519PrivKey.fromVec [1, 2, 3]) [9] =
      Except.error "InvalidSeed" ∧
    sign_ed25519_verify ringModel (SignEd25519PubKey.fromVec [1, 2, 3]) [9]
        (SignEd25519Signature.fromVec [4]) = Except.ok false :=
  ⟨(fromVec_unvalidated_then_checked_on_use [1, 2, 3] ringModel [9]).1,
   (fromVec_unvalidated_then_checked_on_use [1, 2, 3] ringModel [9]).2.2.2.1
     (by decide),
   (fromVec_unvalidated_then_checked_on_use [1, 2, 3] ringModel [9]).2.2.2.2
     (by decide) (SignEd25519Signature.fromVec [4])⟩

/-- C8: key generation fills a fresh 32-byte seed from the system secure
random source and derives the public key deterministically from it
(pub_key = derivePub priv_key); it fails exactly when the entropy source
fails (a 32-byte seed always satisfies from_seed_unchecked, so key
derivation is the only other fallible step and cannot reject here). -/
theorem keypair_new_from_entropy_spec (R : RingEd25519) :
    (∀ e, sign_ed25519_keypair_new_from_entropy R = Except.ok e →
      R.fillRandom 32 = Except.ok e.priv_key.bytes ∧
      e.priv_key.bytes.length = 32 ∧
      e.pub_key.bytes = R.derivePub e.priv_key.bytes) ∧
    (∀ msg, sign_ed25519_keypair_new_from_entropy R = Except.error msg →
      R.fillRandom 32 = Except.error msg) := by
  cases h : R.fillRandom 32 with
  | error s =>
    refine ⟨fun e he => ?_, fun msg hmsg => ?_⟩
    · simp [sign_ed25519_keypair_new_from_entropy, h] at he
    · simp [sign_ed25519_keypair_new_from_entropy, h] at hmsg
      rw [hmsg]
  | ok l =>
    have hl : l.length = 32 := R.fillRandom_length 32 l h
    refine ⟨fun e he => ?_, fun msg hmsg => ?_⟩
    · simp [sign_ed25519_keypair_new_from_entropy, h,
        ed25519KeypairFromSeedUnchecked, hl] at he
      subst he
      exact ⟨rfl, hl, rfl⟩
    · simp [sign_ed25519_keypair_new_from_entropy, h,
        ed25519KeypairFromSeedUnchecked, hl] at hmsg

/-- Witness for C8 on the concrete ringModel backend, whose entropy
fill succeeds with 32 zero bytes. -/
theorem keypair_new_from_entropy_spec_witness :
    ringModel.fillRandom 32 =
      Except.ok (List.replicate 32 (0 : Nat)) ∧
    (List.replicate 32 (0 : Nat)).length = 32 ∧
    (List.replicate 32 (0 : Nat)) =
      ringModel.derivePub (List.replicate 32 (0 : Nat)) := by
  have h := (keypair_new_from_entropy_spec ringModel).1
    ⟨⟨List.replicate 32 0⟩, ⟨List.replicate 32 0⟩⟩ (by rfl)
  exact ⟨h.1, h.2.1, h.2.2⟩

/-- Helper: a run of new-from-entropy requests appends the entries in
order and hands out the indices following the previous store length. -/
theorem runNewFromEntropy_spec (es : List LairEntry) (s : Store) :
    (runNewFromEntropy s es).1 = s ++ es ∧
    (runNewFromEntropy s es).2 = List.range' (s.length + 1) es.length := by
  induction es generalizing s with
  | nil => simp [runNewFromEntropy]
  | cons e es ih =>
    have h := ih (s ++ [e])
    refine ⟨?_, ?_⟩
    · show (runNewFromEntropy (s ++ [e]) es).1 = s ++ e :: es
      rw [h.1]
      simp
    · show (s.length + 1) :: (runNewFromEntropy (s ++ [e]) es).2 =
        List.range' (s.length + 1) (es.length + 1)
      rw [h.2, List.range'_succ]
      simp

/-- C6: starting from the empty store, any sequence of new-from-entropy
requests of any mix of kinds is assigned exactly the indices 1, 2, 3, …
in issue order; successive calls return indices differing by exactly
one, and after the run last_entry_index equals the index handed to the
most recent request. -/
theorem newFromEntropy_indices_contiguous (es : List LairEntry) :
    (runNewFromEntropy ([] : Store) es).2 = List.range' 1 es.length ∧
    (∀ i, i + 1 < (runNewFromEntropy ([] : Store) es).2.length →
      (runNewFromEntropy ([] : Store) es).2.get? (i + 1) =
        ((runNewFromEntropy ([] : Store) es).2.get? i).map (· + 1)) ∧
    lastEntryIndex (runNewFromEntropy ([] : Store) es).1 = es.length ∧
    (0 < es.length →
      (runNewFromEntropy ([] : Store) es).2.get? (es.length - 1) =
        some es.length) := by
  have h0 := runNewFromEntropy_spec es []
  have h2 : (runNewFromEntropy ([] : Store) es).2 = List.range' 1 es.length := by
    simpa using h0.2
  have h1 : (runNewFromEntropy ([] : Store) es).1 = es := by
    simpa using h0.1
  refine ⟨h2, fun i hi => ?_, ?_, fun hpos => ?_⟩
  · rw [h2] at hi ⊢
    rw [List.length_range'] at hi
    rw [List.get?_eq_getElem?, List.get?_eq_getElem?,
      List.getElem?_range' _ _ hi, List.getElem?_range' _ _ (by omega)]
    simp
    omega
  · rw [h1]
    rfl
  · rw [h2, List.get?_eq_getElem?, List.getElem?_range' _ _ (by omega)]
    simp
    omega

/-- C7: entry_type and get are total: index 0 always reports Invalid,
any index beyond last_entry_index yields the Invalid marker rather than
an error, and the empty store has last_entry_index 0. -/
theorem store_lookup_total_invalid (s : Store) (idx : Nat) :
    lairGetEntryType s 0 = LairEntryType.Invalid ∧
    (lastEntryIndex s < idx →
      lairGetEntryType s idx = LairEntryType.Invalid ∧
      getEntry s idx = none) ∧
    lastEntryIndex ([] : Store) = 0 := by
  refine ⟨by simp [lairGetEntryType, getEntry], fun hidx => ?_, rfl⟩
  have hz : idx ≠ 0 := by
    unfold lastEntryIndex at hidx
    omega
  have hnone : getEntry s idx = none := by
    unfold getEntry
    rw [if_neg hz]
    refine List.get?_eq_none.mpr ?_
    unfold lastEntryIndex at hidx
    omega
  exact ⟨by simp [lairGetEntryType, hnone], hnone⟩

/-- Witness for C7 at a one-entry store and the out-of-range index 7. -/
theorem store_lookup_total_invalid_witness :
    lairGetEntryType [LairEntry.x25519 5] 0 = LairEntryType.Invalid ∧
    lairGetEntryType [LairEntry.x25519 5] 7 = LairEntryType.Invalid ∧
    getEntry [LairEntry.x25519 5] 7 = none ∧
    lastEntryIndex ([] : Store) = 0 := by
  have h := store_lookup_total_invalid [LairEntry.x25519 5] 7
  have h2 := h.2.1 (by decide)
  exact ⟨h.1, h2.1, h2.2, h.2.2⟩

/-- C3: for a stored Ed25519 keypair, sign-by-index yields the signature
of the stored seed, sign-by-pub-key for the key's public key yields the
very same result (it is lookup followed by sign-by-index, and signing is
a deterministic function), and any two client connections to the same
service receive identical results, since both forward to the one shared
service actor. -/
theorem sign_by_index_eq_sign_by_pub_key (R : RingEd25519) (s : Store)
    (idx : Nat) (sk pk message : List Nat) (c1 c2 : Nat)
    (hentry : getEntry s idx = some (.signEd25519 sk pk))
    (hfind : findSignByPub s pk = some idx) :
    signEd25519SignByIndex R s idx message = sign_ed25519 R ⟨sk⟩ message ∧
    signEd25519SignByPubKey R s pk message =
      signEd25519SignByIndex R s idx message ∧
    clientSignByIndex c1 R s idx message =
      clientSignByIndex c2 R s idx message ∧
    clientSignByPubKey c1 R s pk message =
      clientSignByPubKey c2 R s pk message := by
  refine ⟨?_, ?_, rfl, rfl⟩
  · unfold signEd25519SignByIndex
    rw [hentry]
  · unfold signEd25519SignByPubKey
    rw [hfind]

/-- Witness for C3: a one-entry store holding an Ed25519 keypair, two
distinct client connections. -/
theorem sign_by_index_eq_sign_by_pub_key_witness :
    signEd25519SignByIndex ringModel
        [LairEntry.signEd25519 (List.replicate 32 1) [7]] 1 [2] =
      sign_ed25519 ringModel ⟨List.replicate 32 1⟩ [2] ∧
    signEd25519SignByPubKey ringModel
        [LairEntry.signEd25519 (List.replicate 32 1) [7]] [7] [2] =
      signEd25519SignByIndex ringModel
        [LairEntry.signEd25519 (List.replicate 32 1) [7]] 1 [2] ∧
    clientSignByIndex 0 ringModel
        [LairEntry.signEd25519 (List.replicate 32 1) [7]] 1 [2] =
      clientSignByIndex 1 ringModel
        [LairEntry.signEd25519 (List.replicate 32 1) [7]] 1 [2] :=
  have h := sign_by_index_eq_sign_by_pub_key ringModel
    [LairEntry.signEd25519 (List.replicate 32 1) [7]] 1
    (List.replicate 32 1) [7] [2] 0 1 (by rfl) (by rfl)
  ⟨h.1, h.2.1, h.2.2.1⟩

/-- C4: two independent sealings of the same plaintext (drawing
successive fresh nonces) differ both in nonce and in ciphertext, and
each opens to the original plaintext with the recipient's private key
and the sender's public key. -/
theorem crypto_box_fresh_and_roundtrip
    (alice bob k : Nat) (data : List Nat) :
    (sealTwice alice (x25519PubOf bob) k data).1.nonce ≠
      (sealTwice alice (x25519PubOf bob) k data).2.nonce ∧
    (sealTwice alice (x25519PubOf bob) k data).1.encrypted_data ≠
      (sealTwice alice (x25519PubOf bob) k data).2.encrypted_data ∧
    cryptoBoxOpen bob (x25519PubOf alice)
      (sealTwice alice (x25519PubOf bob) k data).1 = some data ∧
    cryptoBoxOpen bob (x25519PubOf alice)
      (sealTwice alice (x25519PubOf bob) k data).2 = some data := by
  refine ⟨?_, ?_, ?_, ?_⟩
  · show freshNonce k ≠ freshNonce (k + 1)
    unfold freshNonce
    omega
  · show SealedBytes.mk _ (freshNonce k) data ≠
      SealedBytes.mk _ (freshNonce (k + 1)) data
    unfold freshNonce
    intro hcontra
    simp at hcontra
  · show cryptoBoxOpen bob (x25519PubOf alice)
      (cryptoBoxSeal alice (x25519PubOf bob) (freshNonce k) data) = some data
    simp [cryptoBoxOpen, cryptoBoxSeal, sharedSecret, x25519PubOf,
      Nat.min_comm, Nat.max_comm]
  · show cryptoBoxOpen bob (x25519PubOf alice)
      (cryptoBoxSeal alice (x25519PubOf bob) (freshNonce (k + 1)) data) =
        some data
    simp [cryptoBoxOpen, cryptoBoxSeal, sharedSecret, x25519PubOf,
      Nat.min_comm, Nat.max_comm]

/-- C5: opening a box with a wrong claimed sender public key is a
successful absent reply (Ok none), not an error, and the dispatcher,
which processes its queue one request at a time, answers every request:
dispatching the wrong-sender open followed by the legitimate open yields
exactly one reply per request, the first Ok none and the second
Ok (some plaintext). -/
theorem crypto_box_open_wrong_sender_absent
    (alice bob carol k : Nat) (data : List Nat)
    (hca : carol ≠ alice) (hcb : carol ≠ bob) :
    handleOpenRequest
      ⟨bob, x25519PubOf carol,
        cryptoBoxSeal alice (x25519PubOf bob) (freshNonce k) data⟩ =
      Except.ok none ∧
    dispatchOpenRequests
      [⟨bob, x25519PubOf carol,
          cryptoBoxSeal alice (x25519PubOf bob) (freshNonce k) data⟩,
       ⟨bob, x25519PubOf alice,
          cryptoBoxSeal alice (x25519PubOf bob) (freshNonce k) data⟩] =
      [Except.ok none, Except.ok (some data)] := by
  have habsent : cryptoBoxOpen bob (x25519PubOf carol)
      (cryptoBoxSeal alice (x25519PubOf bob) (freshNonce k) data) = none := by
    simp only [cryptoBoxOpen, cryptoBoxSeal, sharedSecret, x25519PubOf]
    rw [if_neg]
    intro hcontra
    have hpair := hcontra.1
    simp only [Prod.mk.injEq] at hpair
    rcases Nat.le_total alice bob with h1 | h1 <;>
      rcases Nat.le_total bob carol with h2 | h2 <;>
        simp [Nat.min_def, Nat.max_def, h1, h2] at hpair <;>
          omega
  have hopen : cryptoBoxOpen bob (x25519PubOf alice)
      (cryptoBoxSeal alice (x25519PubOf bob) (freshNonce k) data) =
        some data := by
    simp [cryptoBoxOpen, cryptoBoxSeal, sharedSecret, x25519PubOf,
      Nat.min_comm, Nat.max_comm]
  refine ⟨?_, ?_⟩
  · unfold handleOpenRequest
    rw [habsent]
  · unfold dispatchOpenRequests
    simp only [List.map]
    unfold handleOpenRequest
    rw [habsent, hopen]

/-- Witness for C5 with Alice, Bob and Carol instantiated to the
distinct scalars 0, 1 and 2. -/
theorem crypto_box_open_wrong_sender_absent_witness :
    handleOpenRequest
      ⟨1, x25519PubOf 2,
        cryptoBoxSeal 0 (x25519PubOf 1) (freshNonce 0) [7]⟩ =
      Except.ok none ∧
    dispatchOpenRequests
      [⟨1, x25519PubOf 2,
          cryptoBoxSeal 0 (x25519PubOf 1) (freshNonce 0) [7]⟩,
       ⟨1, x25519PubOf 0,
          cryptoBoxSeal 0 (x25519PubOf 1) (freshNonce 0) [7]⟩] =
      [Except.ok none, Except.ok (some [7])] :=
  crypto_box_open_wrong_sender_absent 0 1 2 0 [7] (by decide) (by decide)

/-- Witness for C6: a run of three requests mixing the kinds (TLS cert,
then Ed25519, then X25519) receives the indices 1, 2, 3. -/
theorem newFromEntropy_indices_contiguous_witness :
    (runNewFromEntropy ([] : Store)
        [LairEntry.tlsCert "a" [], LairEntry.signEd25519 [] [],
         LairEntry.x25519 0]).2 = [1, 2, 3] ∧
    (runNewFromEntropy ([] : Store)
        [LairEntry.tlsCert "a" [], LairEntry.signEd25519 [] [],
         LairEntry.x25519 0]).2.get? 2 =
      ((runNewFromEntropy ([] : Store)
        [LairEntry.tlsCert "a" [], LairEntry.signEd25519 [] [],
         LairEntry.x25519 0]).2.get? 1).map (· + 1) ∧
    lastEntryIndex (runNewFromEntropy ([] : Store)
        [LairEntry.tlsCert "a" [], LairEntry.signEd25519 [] [],
         LairEntry.x25519 0]).1 = 3 ∧
    (runNewFromEntropy ([] : Store)
        [LairEntry.tlsCert "a" [], LairEntry.signEd25519 [] [],
         LairEntry.x25519 0]).2.get? 2 = some 3 := by
  have h := newFromEntropy_indices_contiguous
    [LairEntry.tlsCert "a" [], LairEntry.signEd25519 [] [],
     LairEntry.x25519 0]
  exact ⟨h.1.trans (by rfl), h.2.1 1 (by decide), h.2.2.1,
    h.2.2.2 (by decide)⟩
